import Mathlib

/-!
Verification of the program in crates/compute_natural_numbers.py.

The program materializes the list of the first N natural numbers
(N hardcoded to 8 in main), prints it, prints an enumerated listing,
and prints the sum.  We shallow-embed the two functions of the source,
with Python integers modelled as Int and Python ranges materialized
as Lean lists.
-/

namespace ComputeNaturalNumbers

/-- Python range(start, stop) with step 1, materialized as a list:
elements start + i for 0 ≤ i < stop - start, empty when stop ≤ start. -/
def pythonRange (start stop : Int) : List Int :=
  (List.range (stop - start).toNat).map (fun (i : Nat) => start + (i : Int))

/-- Embedding of compute_first_n_natural_numbers(n):
return list(range(1, n + 1)). -/
def compute_first_n_natural_numbers (n : Int) : List Int :=
  pythonRange 1 (n + 1)

/-- Python repr of a list of ints, as produced by print(natural_numbers):
bracketed, comma-and-space separated. -/
def pyListRepr (xs : List Int) : String :=
  "[" ++ String.intercalate ", " (xs.map toString) ++ "]"

/-- Python enumerate(xs, start): pairs each element with its index,
counting from start. -/
def enumerate (start : Int) (xs : List Int) : List (Int × Int) :=
  match xs with
  | [] => []
  | x :: rest => (start, x) :: enumerate (start + 1) rest

/-- The lines printed by the for-loop in main: one line per element,
formatted as "i: num" with i counting from 1. -/
def formattedLines (xs : List Int) : List String :=
  (enumerate 1 xs).map (fun p => toString p.1 ++ ": " ++ toString p.2)

/-- Embedding of main() as the list of stdout lines it produces, in an
exception monad: no statement of main can raise, so the body is pure.
print(s) contributes the line s; print("\nFormatted output:") and the
final print contribute a blank line followed by their text. -/
def mainExc : Except String (List String) := do
  let n : Int := 8
  let natural_numbers := compute_first_n_natural_numbers n
  let header := "The first " ++ toString n ++ " natural numbers are:"
  let seqLine := pyListRepr natural_numbers
  let fmt := formattedLines natural_numbers
  let total := natural_numbers.sum
  let sumLine := "Sum of first " ++ toString n ++ " natural numbers: " ++ toString total
  return [header, seqLine, "", "Formatted output:"] ++ fmt ++ ["", sumLine]

/-- The stdout lines of the run (empty if main raised, which it cannot). -/
def mainOutput : List String :=
  match mainExc with
  | .ok ls => ls
  | .error _ => []

/-- The observable result of one process run. -/
structure ProcessResult where
  stdout : List String
  stderr : List String
  exitCode : Int
deriving DecidableEq

/-- Running the script: if main returns, the interpreter exits 0 with
nothing on stderr; an uncaught exception would print a traceback to
stderr and exit 1. -/
def runProgram : ProcessResult :=
  match mainExc with
  | .ok ls => ⟨ls, [], 0⟩
  | .error e => ⟨[], [e], 1⟩

/-- Claim C1: main with N fixed at 8 writes exactly the header, the
bracketed list, a blank line, the enumerated lines 1..8, and the sum
line reporting 36. -/
theorem main_output_exact :
    mainOutput =
      ["The first 8 natural numbers are:",
       "[1, 2, 3, 4, 5, 6, 7, 8]",
       "",
       "Formatted output:",
       "1: 1", "2: 2", "3: 3", "4: 4", "5: 5", "6: 6", "7: 7", "8: 8",
       "",
       "Sum of first 8 natural numbers: 36"] := by
  decide

/-- Unfolding: the generated list is the i-th entries 1 + i over range n.toNat. -/
lemma compute_eq (n : Int) :
    compute_first_n_natural_numbers n
      = (List.range n.toNat).map (fun (i : Nat) => 1 + (i : Int)) := by
  unfold compute_first_n_natural_numbers pythonRange
  norm_num

/-- The generated list always has length n.toNat. -/
lemma compute_length (n : Int) :
    (compute_first_n_natural_numbers n).length = n.toNat := by
  simp [compute_eq]

/-- Claim C2: for N ≥ 0 the list has length N and its k-th element
(0-indexed k) is k + 1, i.e. the 1-indexed k-th element is k. -/
theorem compute_spec (N : Int) (h : 0 ≤ N) :
    (compute_first_n_natural_numbers N).length = N.toNat
    ∧ ∀ k : Nat, k < N.toNat →
        (compute_first_n_natural_numbers N)[k]? = some ((k : Int) + 1) := by
  refine ⟨compute_length N, fun k hk => ?_⟩
  rw [compute_eq]
  rw [List.getElem?_map, List.getElem?_range hk]
  simp [add_comm]

/-- Witness for C2 at N = 8, k = 2. -/
theorem compute_spec_witness :
    (compute_first_n_natural_numbers 8).length = (8 : Int).toNat
    ∧ (compute_first_n_natural_numbers 8)[2]? = some (((2 : Nat) : Int) + 1) :=
  ⟨(compute_spec 8 (by decide)).1, (compute_spec 8 (by decide)).2 2 (by decide)⟩

/-- Twice the sum of the generated list over range n is n * (n + 1). -/
lemma two_mul_sum (n : Nat) :
    2 * ((List.range n).map (fun (i : Nat) => 1 + (i : Int))).sum = n * (n + 1) := by
  induction n with
  | zero => simp
  | succ m ih =>
    rw [List.range_succ, List.map_append, List.sum_append]
    simp only [List.map_cons, List.map_nil, List.sum_cons, List.sum_nil]
    push_cast
    push_cast at ih
    linarith

/-- Claim C3: for N ≥ 0 the sum of the generated list is N * (N + 1) / 2. -/
theorem sum_closed_form (N : Int) (h : 0 ≤ N) :
    (compute_first_n_natural_numbers N).sum = N * (N + 1) / 2 := by
  have h2 := two_mul_sum N.toNat
  rw [Int.toNat_of_nonneg h] at h2
  rw [compute_eq]
  omega

/-- Witness for C3 at N = 8: sum is 8 * 9 / 2 = 36. -/
theorem sum_closed_form_witness :
    (compute_first_n_natural_numbers 8).sum = 8 * (8 + 1) / 2 :=
  sum_closed_form 8 (by decide)

/-- Claim C4: for N ≤ 0 the generated list is empty (and the function is
total, so no error is raised); for N = 0 the sum is 0. -/
theorem compute_nonpos (N : Int) (h : N ≤ 0) :
    compute_first_n_natural_numbers N = []
    ∧ (compute_first_n_natural_numbers 0).sum = 0 := by
  constructor
  · rw [compute_eq]
    have : N.toNat = 0 := Int.toNat_of_nonpos h
    rw [this]
    simp
  · decide

/-- Witness for C4 at N = -3. -/
theorem compute_nonpos_witness :
    compute_first_n_natural_numbers (-3) = []
    ∧ (compute_first_n_natural_numbers 0).sum = 0 :=
  compute_nonpos (-3) (by decide)

/-- Claim C5: the generator is deterministic: equal arguments give equal
results (it is a pure function of its argument, with no hidden state),
and the process output is the fixed value mainOutput on every run. -/
theorem generator_deterministic :
    (∀ n₁ n₂ : Int, n₁ = n₂ →
      compute_first_n_natural_numbers n₁ = compute_first_n_natural_numbers n₂)
    ∧ runProgram.stdout = mainOutput := by
  refine ⟨fun n₁ n₂ h => by rw [h], ?_⟩
  decide

/-- Witness for C5 at n₁ = n₂ = 8. -/
theorem generator_deterministic_witness :
    compute_first_n_natural_numbers 8 = compute_first_n_natural_numbers 8
    ∧ runProgram.stdout = mainOutput :=
  ⟨generator_deterministic.1 8 8 rfl, generator_deterministic.2⟩

/-- Claim C6: the run has no failure path: main returns normally, stderr
is empty and the exit code is 0. -/
theorem run_no_failure :
    mainExc = Except.ok mainOutput
    ∧ runProgram.stderr = [] ∧ runProgram.exitCode = 0 := by
  exact ⟨rfl, rfl, rfl⟩

/-- The recursive materialization of range(lo, hi): the loop the Python
runtime performs when building list(range(lo, hi)).  Lean accepts it as a
total function, with (hi - lo).toNat as the decreasing measure: this is
the termination argument for the generation loop. -/
def buildRange (lo hi : Int) : List Int :=
  if h : lo < hi then lo :: buildRange (lo + 1) hi else []
termination_by (hi - lo).toNat
decreasing_by
  simp_wf
  omega

/-- The recursive materialization agrees with the direct one, for any
bounds (induction on the number of remaining iterations). -/
lemma buildRange_eq_aux :
    ∀ (k : Nat) (lo hi : Int), (hi - lo).toNat = k →
      buildRange lo hi = pythonRange lo hi := by
  intro k
  induction k with
  | zero =>
    intro lo hi hk
    rw [buildRange, dif_neg (by omega)]
    unfold pythonRange
    rw [hk]
    simp
  | succ m ih =>
    intro lo hi hk
    have hlt : lo < hi := by omega
    rw [buildRange, dif_pos hlt, ih (lo + 1) hi (by omega)]
    unfold pythonRange
    have h1 : (hi - lo).toNat = (hi - (lo + 1)).toNat + 1 := by omega
    rw [h1, List.range_succ_eq_map]
    simp only [List.map_cons, List.map_map]
    rw [List.cons_eq_cons]
    refine ⟨by simp, List.map_congr_left (fun a _ => ?_)⟩
    simp only [Function.comp_apply]
    push_cast
    ring

/-- Claim C7: the whole run terminates: the generation loop terminates for
every integer input (buildRange is a total function equal to the
generator), and main produces a finite output of exactly 14 lines. -/
theorem run_terminates :
    (∀ N : Int, compute_first_n_natural_numbers N = buildRange 1 (N + 1))
    ∧ mainOutput.length = 14 := by
  constructor
  · intro N
    rw [compute_first_n_natural_numbers,
        buildRange_eq_aux (N + 1 - 1).toNat 1 (N + 1) rfl]
  · decide

/-- Claim C8: the three textual views (raw sequence line, enumerated
listing, sum line) are all derived from the one list returned by the
single generator call, and the reported total 36 is the arithmetic sum
of that list's elements. -/
theorem three_views_consistent :
    mainOutput
      = ["The first 8 natural numbers are:",
         pyListRepr (compute_first_n_natural_numbers 8),
         "",
         "Formatted output:"]
        ++ formattedLines (compute_first_n_natural_numbers 8)
        ++ ["", "Sum of first 8 natural numbers: "
              ++ toString (compute_first_n_natural_numbers 8).sum]
    ∧ ((enumerate 1 (compute_first_n_natural_numbers 8)).map Prod.snd).sum
        = (compute_first_n_natural_numbers 8).sum
    ∧ (compute_first_n_natural_numbers 8).sum = 36 := by
  exact ⟨by decide, by decide, by decide⟩

/-- Claim C9: prefix monotonicity: for 0 ≤ n ≤ m, the first n elements of
the generator's output at m are exactly the generator's output at n. -/
theorem compute_monotone (n m : Int) (h0 : 0 ≤ n) (h : n ≤ m) :
    (compute_first_n_natural_numbers m).take n.toNat
      = compute_first_n_natural_numbers n := by
  rw [compute_eq, compute_eq, ← List.map_take, List.take_range]
  have : min n.toNat m.toNat = n.toNat := by omega
  rw [this]

/-- Witness for C9 at n = 3, m = 7. -/
theorem compute_monotone_witness :
    (compute_first_n_natural_numbers 7).take (3 : Int).toNat
      = compute_first_n_natural_numbers 3 :=
  compute_monotone 3 7 (by decide) (by decide)

/-- Claim C10: for every integer n the generator is total, its output has
length max(n, 0), and every element x of the output satisfies
1 ≤ x ≤ n. -/
theorem compute_total_bounds (n : Int) :
    (compute_first_n_natural_numbers n).length = (max n 0).toNat
    ∧ ∀ x ∈ compute_first_n_natural_numbers n, 1 ≤ x ∧ x ≤ n := by
  constructor
  · rw [compute_length]
    omega
  · intro x hx
    rw [compute_eq] at hx
    obtain ⟨i, hi, rfl⟩ := List.mem_map.mp hx
    rw [List.mem_range] at hi
    omega

/-- Witness for C10 at n = 5, x = 3. -/
theorem compute_total_bounds_witness :
    (compute_first_n_natural_numbers 5).length = (max (5 : Int) 0).toNat
    ∧ ((3 : Int) ∈ compute_first_n_natural_numbers 5
        ∧ (1 ≤ (3 : Int) ∧ (3 : Int) ≤ 5)) :=
  ⟨(compute_total_bounds 5).1,
   by decide,
   (compute_total_bounds 5).2 3 (by decide)⟩

end ComputeNaturalNumbers
